import Mathlib

/-!
Shallow embedding of the `ai-sidecar` session/state orchestrator
(`src/history.rs`, `src/llm.rs`, `src/api/v1.rs`, `src/server.rs`).

The embedding keeps the source's structure: the conversation history model
(`Message`, `MessageType`, `History`), the text-generation wrapper
(`llm.generate_text`, with the external `llama_cpp` engine abstracted as an
oracle), the three request handlers of `api/v1.rs` as sequential
state-transformer functions, and, for the concurrency claims, a small-step
interleaving semantics of the handlers in which the two tokio mutexes
(`ai_active` and `history`) and the order of the atomic actions between
`await` points are modelled explicitly.
-/

namespace AiSidecar

/-- Model of Rust `str::trim` (used by the source as `ASSISTANT.trim()`):
removes leading and trailing whitespace characters. -/
def rustTrim (s : String) : String :=
  ⟨((s.data.dropWhile Char.isWhitespace).reverse.dropWhile Char.isWhitespace).reverse⟩

/-! ## history.rs -/

namespace headers

def SYSTEM : String := "<|system|>\n"

def USER : String := "<|user|>\n"

def ASSISTANT : String := "<|assistant|>\n"

end headers

inductive MessageType where
  | System
  | User
  | Assistant
deriving DecidableEq, Repr

/-- The `Display` impl for `MessageType` in `history.rs`: each role maps to
its fixed role-marker token. -/
def MessageType.display : MessageType → String
  | .System => headers.SYSTEM
  | .User => headers.USER
  | .Assistant => headers.ASSISTANT

structure Message where
  message_type : MessageType
  content : String
deriving DecidableEq, Repr

/-- `Message::get`: `format!("{id}{msg}</s>\n")` — role marker, content,
terminator. -/
def Message.get (m : Message) : String :=
  m.message_type.display ++ m.content ++ "</s>\n"

structure History where
  system : Message
  history : List Message
deriving DecidableEq, Repr

/-- `History::new`: seeds the system turn with the given content and the
stored turns with the single placeholder assistant greeting. -/
def History.new (system_content : String) : History :=
  { system := { message_type := .System, content := system_content }
    history := [{ message_type := .Assistant
                  content := "Hello, how may I help you today?" }] }

/-- `History::get_inner`: starting from `prompt`, appends each stored
message's serialization in order, then the trimmed assistant header. -/
def History.get_inner (h : History) (prompt : String) : String :=
  (h.history.foldl (fun acc m => acc ++ m.get) prompt) ++ rustTrim headers.ASSISTANT

/-- `History::get`: renders the full prompt starting from the system turn. -/
def History.get (h : History) : String :=
  h.get_inner h.system.get

/-- `History::get_with_system`: renders with the system content replaced for
this call only; stored state untouched. -/
def History.get_with_system (h : History) (system_content : String) : String :=
  h.get_inner (Message.get { message_type := .System, content := system_content })

/-- `History::push`: appends one message. -/
def History.push (h : History) (message_type : MessageType) (content : String) : History :=
  { h with history := h.history ++ [{ message_type, content }] }

/-- `History::clear`: `self.history.clear()` — drops all stored turns, the
system field untouched. -/
def History.clear (h : History) : History :=
  { h with history := [] }

/-- `History::get` borrows the history immutably (`&self`): one call returns
the rendered string and leaves the state exactly as it was.  `render_call`
makes that explicit as a state transformer. -/
def render_call (h : History) : String × History :=
  (h.get, h)

/-! ## llm.rs

`generate_text` drives the external `llama_cpp` engine.  The engine itself
(`create_session`, `advance_context`, `start_completing_with`) is out of
scope and abstracted as an oracle: `create_session` either succeeds or
fails, and `complete` consumes the rendered prompt and the token budget
and either produces the full completion text or fails.  (The source's
stream-of-chunks return value is consumed by `handle_generate` as one
completed string.) -/

def DEFAULT_MAX_TOKENS : Nat := 128

structure Options where
  setup : Option String
  prompt : String
  max_tokens : Option Nat
deriving Repr

/-- Oracle for the external `llama_cpp` engine collaborator. -/
structure Engine where
  create_session : Except String Unit
  complete : String → Nat → Except String String

/-- The prompt string handed to the engine by `generate_text`: rendered from
the history (after the User push) with the per-call system override when
`setup` is present. -/
def rendered_for (h : History) (setup : Option String) : String :=
  match setup with
  | some v => h.get_with_system v
  | none => h.get

/-- `llm::generate_text`: create a session (may fail before any history
mutation), push the User turn carrying the prompt, render, and run the
engine on the rendered prompt with `max_tokens.unwrap_or(DEFAULT_MAX_TOKENS)`.
Returns the updated history together with the engine outcome. -/
def generate_text (model : Engine) (history : History) (opts : Options) :
    History × Except String String :=
  match model.create_session with
  | .error e => (history, .error e)
  | .ok _ =>
    let history := history.push .User opts.prompt
    (history,
      model.complete (rendered_for history opts.setup)
        (opts.max_tokens.getD DEFAULT_MAX_TOKENS))

/-! ## api/v1.rs — auth gate and sequential handler semantics

A header value as returned by `HeaderMap::get` either decodes to a string
via `to_str` (visible ASCII) or is malformed; the `secret` header is either
absent or carries such a value. -/

inductive HeaderValue where
  | valid (s : String)
  | malformed
deriving DecidableEq, Repr

/-- `HeaderValue::to_str`. -/
def HeaderValue.to_str : HeaderValue → Option String
  | .valid s => some s
  | .malformed => none

/-- `valid_header`: the `secret` header must be present, decode as a string,
and equal the expected secret. -/
def valid_header (header : Option HeaderValue) (expected : String) : Bool :=
  match header with
  | none => false
  | some h =>
    match h.to_str with
    | none => false
    | some value => value == expected

inductive IsBusyResponse where
  | Ready
  | Busy
deriving DecidableEq, Repr

inductive ClearHistoryResponse where
  | Success
  | Busy
deriving DecidableEq, Repr

structure GenerateRequest where
  setup : Option String
  prompt : String
  max_tokens : Option Nat
deriving Repr

/-- The `Into<llm::Options>` impl for `GenerateRequest`. -/
def GenerateRequest.into (req : GenerateRequest) : Options :=
  { setup := req.setup, prompt := req.prompt, max_tokens := req.max_tokens }

inductive GenerateResponse where
  | Success (message : String)
  | Busy
  | GenerateError (message : String)
deriving DecidableEq, Repr

/-- Shared application state (`server.rs::AppState`): the `ai_active` flag,
the engine, the shared secret and the conversation history. -/
structure AppState where
  ai_active : Bool
  ai_model : Engine
  secret : String
  history : History

/-- `handle_is_busy` as a sequential state transformer: HTTP status,
response body, and the state after the request. -/
def handle_is_busy (st : AppState) (header : Option HeaderValue) :
    Nat × IsBusyResponse × AppState :=
  if !valid_header header st.secret then
    (401, IsBusyResponse.Busy, st)
  else
    (200, if st.ai_active then IsBusyResponse.Busy else IsBusyResponse.Ready, st)

/-- `clear_history` as a sequential state transformer. -/
def clear_history (st : AppState) (header : Option HeaderValue) :
    Nat × ClearHistoryResponse × AppState :=
  if !valid_header header st.secret then
    (401, ClearHistoryResponse.Busy, st)
  else if st.ai_active then
    (409, ClearHistoryResponse.Busy, st)
  else
    (200, ClearHistoryResponse.Success, { st with history := st.history.clear })

/-- `handle_generate` as a sequential state transformer, mirroring the
source line by line: auth check, flag check, `*ai_active = true`, call into
`llm::generate_text`; on engine failure the handler returns 500 **without
resetting the flag** (the early `return` drops the mutex guards but leaves
`*ai_active == true`); on success the flag is cleared and the Assistant
turn is pushed before the handler returns 200. -/
def handle_generate (st : AppState) (header : Option HeaderValue)
    (req : GenerateRequest) : Nat × GenerateResponse × AppState :=
  if !valid_header header st.secret then
    (401, GenerateResponse.Busy, st)
  else if st.ai_active then
    (409, GenerateResponse.Busy, st)
  else
    let st := { st with ai_active := true }
    match generate_text st.ai_model st.history req.into with
    | (hist, .error _) =>
      (500,
        GenerateResponse.GenerateError "unable to create token generation stream",
        { st with history := hist })
    | (hist, .ok output) =>
      (200, GenerateResponse.Success output,
        { st with ai_active := false
                  history := hist.push .Assistant output })

/-! ## serde JSON serialization of the response enums

The response enums derive `Serialize` with `#[serde(tag = "type",
rename_all = "snake_case")]`: unit variants serialize as
`{"type":"<snake_case name>"}` and struct variants inline their fields
after the tag.  String escaping follows serde_json (`"` and `\` escaped,
control characters escaped, everything else verbatim). -/

def hexDigit (n : Nat) : Char :=
  if n < 10 then Char.ofNat (48 + n) else Char.ofNat (87 + n)

def jsonEscapeChar (c : Char) : List Char :=
  if c = '"' then ['\\', '"']
  else if c = '\\' then ['\\', '\\']
  else if c = Char.ofNat 8 then ['\\', 'b']
  else if c = Char.ofNat 12 then ['\\', 'f']
  else if c = '\n' then ['\\', 'n']
  else if c = '\r' then ['\\', 'r']
  else if c = '\t' then ['\\', 't']
  else if c.toNat < 32 then
    ['\\', 'u', '0', '0', hexDigit (c.toNat / 16), hexDigit (c.toNat % 16)]
  else [c]

def jsonEscape (s : String) : String :=
  ⟨s.data.foldr (fun c acc => jsonEscapeChar c ++ acc) []⟩

def IsBusyResponse.toJson : IsBusyResponse → String
  | .Ready => "\x7b\"type\":\"ready\"\x7d"
  | .Busy => "\x7b\"type\":\"busy\"\x7d"

def ClearHistoryResponse.toJson : ClearHistoryResponse → String
  | .Success => "\x7b\"type\":\"success\"\x7d"
  | .Busy => "\x7b\"type\":\"busy\"\x7d"

def GenerateResponse.toJson : GenerateResponse → String
  | .Success message =>
    "\x7b\"type\":\"success\",\"message\":\"" ++ jsonEscape message ++ "\"\x7d"
  | .Busy => "\x7b\"type\":\"busy\"\x7d"
  | .GenerateError message =>
    "\x7b\"type\":\"generate_error\",\"message\":\"" ++ jsonEscape message ++ "\"\x7d"

/-! ## Interleaving semantics of the handlers

Inbound requests run as independent tokio tasks over the shared
`AppState`.  The shared data observable across tasks are the two
`tokio::sync::Mutex`es and their contents: `ai_active : Mutex<bool>` and
`history : Mutex<History>`.  A task can only be preempted at an `await`
point, i.e. at `lock().await`; every run of code between two `await`
points is one atomic step.  We model each handler (past the auth gate) as
a program counter over such atomic steps; the engine outcome of a generate
task is predetermined by an oracle field, since the engine is external.

Program counters for a generate task mirror `handle_generate`:
- `pc 0`: blocked acquiring the `ai_active` mutex (line 134);
- `pc 1`: holding it, runs lines 135–140: if the flag is set, return
  Conflict (dropping the guard), else set the flag;
- `pc 2`: blocked acquiring the `history` mutex (line 143);
- `pc 3`: runs `llm::generate_text` (lines 145–153): on session failure,
  return 500 dropping both guards with the flag still set; on completion
  failure, the User turn has been pushed, then the same 500 return; on
  success the User turn is pushed and the engine produces its output;
- `pc 4`: line 155, `*ai_active = false`;
- `pc 5`: line 156, push the Assistant turn;
- `pc 6`: the 200 return, dropping both guards.

(`pc 4`, `pc 5` and `pc 6` contain no `await` and so execute atomically in
the real program; splitting them only adds interleavings, which makes the
C1 theorem stronger and exposes the write order of lines 155–156.)

A clear task mirrors `clear_history`: acquire `ai_active` (pc 0), check the
flag and drop the guard — its scope ends at line 87 — returning Conflict if
set (pc 1), acquire `history` (pc 2), clear it and return (pc 3).  A status
task mirrors `handle_is_busy`: acquire `ai_active` (pc 0), read the flag,
drop the guard and respond (pc 1). -/

inductive EngineOutcome where
  | sessionErr
  | completeErr
  | ok (output : String)
deriving DecidableEq, Repr

inductive TaskKind where
  | gen (prompt : String) (setup : Option String) (outcome : EngineOutcome)
  | clearReq
  | statusReq
deriving DecidableEq, Repr

def TaskKind.isGen : TaskKind → Bool
  | .gen _ _ _ => true
  | _ => false

inductive TaskResult where
  | conflict
  | genFailure
  | genSuccess (output : String)
  | clearDone
  | statusBusy
  | statusReady
deriving DecidableEq, Repr

structure TaskState where
  kind : TaskKind
  pc : Nat
  result : Option TaskResult
deriving DecidableEq, Repr

/-- The shared state plus the per-task states; `aiLock`/`histLock` hold the
index of the task currently holding the corresponding mutex. -/
structure Sys where
  aiLock : Option Nat
  aiActive : Bool
  histLock : Option Nat
  hist : History
  tasks : List TaskState
deriving DecidableEq, Repr

/-- One atomic step of task `i`; `none` when the task does not exist, has
already responded, or is blocked waiting on a mutex. -/
def step (s : Sys) (i : Nat) : Option Sys :=
  match s.tasks.get? i with
  | none => none
  | some t =>
    match t.result with
    | some _ => none
    | none =>
      match t.kind with
      | .gen prompt _setup outcome =>
        match t.pc with
        | 0 =>
          match s.aiLock with
          | none => some { s with aiLock := some i, tasks := s.tasks.set i { t with pc := 1 } }
          | some _ => none
        | 1 =>
          if s.aiActive then
            some { s with aiLock := none,
                          tasks := s.tasks.set i { t with result := some .conflict } }
          else
            some { s with aiActive := true, tasks := s.tasks.set i { t with pc := 2 } }
        | 2 =>
          match s.histLock with
          | none => some { s with histLock := some i, tasks := s.tasks.set i { t with pc := 3 } }
          | some _ => none
        | 3 =>
          match outcome with
          | .sessionErr =>
            some { s with aiLock := none, histLock := none,
                          tasks := s.tasks.set i { t with result := some .genFailure } }
          | .completeErr =>
            some { s with hist := s.hist.push .User prompt,
                          aiLock := none, histLock := none,
                          tasks := s.tasks.set i { t with result := some .genFailure } }
          | .ok _ =>
            some { s with hist := s.hist.push .User prompt,
                          tasks := s.tasks.set i { t with pc := 4 } }
        | 4 => some { s with aiActive := false, tasks := s.tasks.set i { t with pc := 5 } }
        | 5 =>
          match outcome with
          | .ok output =>
            some { s with hist := s.hist.push .Assistant output,
                          tasks := s.tasks.set i { t with pc := 6 } }
          | _ => none
        | 6 =>
          match outcome with
          | .ok output =>
            some { s with aiLock := none, histLock := none,
                          tasks := s.tasks.set i { t with result := some (.genSuccess output) } }
          | _ => none
        | _ => none
      | .clearReq =>
        match t.pc with
        | 0 =>
          match s.aiLock with
          | none => some { s with aiLock := some i, tasks := s.tasks.set i { t with pc := 1 } }
          | some _ => none
        | 1 =>
          if s.aiActive then
            some { s with aiLock := none,
                          tasks := s.tasks.set i { t with result := some .conflict } }
          else
            some { s with aiLock := none, tasks := s.tasks.set i { t with pc := 2 } }
        | 2 =>
          match s.histLock with
          | none => some { s with histLock := some i, tasks := s.tasks.set i { t with pc := 3 } }
          | some _ => none
        | 3 =>
          some { s with hist := s.hist.clear, histLock := none,
                        tasks := s.tasks.set i { t with result := some .clearDone } }
        | _ => none
      | .statusReq =>
        match t.pc with
        | 0 =>
          match s.aiLock with
          | none => some { s with aiLock := some i, tasks := s.tasks.set i { t with pc := 1 } }
          | some _ => none
        | 1 =>
          let r : TaskResult := if s.aiActive then .statusBusy else .statusReady
          some { s with aiLock := none, tasks := s.tasks.set i { t with result := some r } }
        | _ => none

/-- Run a schedule: at each element, perform that task's next atomic step
(`none` if any scheduled task is blocked, finished or absent). -/
def stepN (s : Sys) (schedule : List Nat) : Option Sys :=
  match schedule with
  | [] => some s
  | i :: rest =>
    match step s i with
    | none => none
    | some u => stepN u rest

/-- Initial states: both mutexes free, flag down, every task at its first
instruction with no response yet. -/
def Init (s : Sys) : Prop :=
  s.aiLock = none ∧ s.histLock = none ∧ s.aiActive = false ∧
  ∀ t ∈ s.tasks, t.pc = 0 ∧ t.result = none

/-- Reachability under arbitrary interleavings. -/
inductive Reach : Sys → Sys → Prop where
  | refl (s : Sys) : Reach s s
  | tail {s t u : Sys} (i : Nat) : Reach s t → step t i = some u → Reach s u

/-- A task that currently holds the `ai_active` mutex: any kind at `pc 1`
(the flag check), or a generate task anywhere from the flag check to its
final return (its guard lives to the end of the handler). -/
def holdsAi (t : TaskState) : Bool :=
  t.result.isNone &&
    (t.pc == 1 ||
      (t.kind.isGen && (t.pc == 2 || t.pc == 3 || t.pc == 4 || t.pc == 5 || t.pc == 6)))

/-- The mutual-exclusion invariant for the `ai_active` mutex: `aiLock`
records exactly the task (if any) whose control point holds the guard. -/
def LockInv (s : Sys) : Prop :=
  (∀ i t, s.tasks.get? i = some t → holdsAi t = true → s.aiLock = some i) ∧
  (∀ i, s.aiLock = some i → ∃ t, s.tasks.get? i = some t ∧ holdsAi t = true)

/-! ## Concrete fixtures used to evaluate the model -/

/-- An engine whose session creation succeeds and whose completion always
returns the fixed text "It is 4.". -/
def okEngine : Engine :=
  { create_session := .ok ()
    complete := fun _ _ => .ok "It is 4." }

/-- An engine whose session is created but whose completion call fails
(e.g. `advance_context` or `start_completing_with` errors). -/
def failEngine : Engine :=
  { create_session := .ok ()
    complete := fun _ _ => .error "completion failed" }

def idleState (model : Engine) : AppState :=
  { ai_active := false
    ai_model := model
    secret := "s3cret"
    history := History.new "You are helpful." }

def goodHeader : Option HeaderValue := some (.valid "s3cret")

def badHeader : Option HeaderValue := some (.valid "wrong")

def sampleReq : GenerateRequest :=
  { setup := none, prompt := "2+2?", max_tokens := none }

/-- Interleaved fixture: one successful generate task and one concurrent
generate task. -/
def twoGenSys : Sys :=
  { aiLock := none
    aiActive := false
    histLock := none
    hist := History.new "You are helpful."
    tasks := [{ kind := .gen "2+2?" none (.ok "It is 4."), pc := 0, result := none },
              { kind := .gen "3+3?" none (.ok "It is 6."), pc := 0, result := none }] }

/-- Interleaved fixture: one successful generate task and one concurrent
clear task. -/
def genClearSys : Sys :=
  { aiLock := none
    aiActive := false
    histLock := none
    hist := History.new "You are helpful."
    tasks := [{ kind := .gen "2+2?" none (.ok "It is 4."), pc := 0, result := none },
              { kind := .clearReq, pc := 0, result := none }] }

/-- Interleaved fixture for the C1 witness: a single successful generate
task. -/
def oneGenSys : Sys :=
  { aiLock := none
    aiActive := false
    histLock := none
    hist := History.new "You are helpful."
    tasks := [{ kind := .gen "2+2?" none (.ok "It is 4."), pc := 0, result := none }] }

/-- The state of `oneGenSys` after five atomic steps of its single task:
the engine call has returned, line 155 has cleared the flag, line 156 (the
Assistant push) has not yet run — the C1 danger window. -/
def oneGenMid : Sys :=
  { aiLock := some 0
    aiActive := false
    histLock := some 0
    hist := (History.new "You are helpful.").push .User "2+2?"
    tasks := [{ kind := .gen "2+2?" none (.ok "It is 4."), pc := 5, result := none }] }

/-! # Theorems -/

/-! ## Rendering lemmas -/

/-- The trailing assistant marker appended by `get_inner` is the assistant
header with its newline trimmed. -/
theorem rustTrim_assistant : rustTrim headers.ASSISTANT = "<|assistant|>" := by
  decide

theorem string_foldl_shift (l : List String) (a : String) :
    l.foldl (fun r s => r ++ s) a = a ++ l.foldl (fun r s => r ++ s) "" := by
  induction l generalizing a with
  | nil => simp [String.append_empty]
  | cons s l ih =>
    simp only [List.foldl_cons]
    rw [ih (a ++ s), ih ("" ++ s), String.empty_append, String.append_assoc]

theorem string_join_cons (s : String) (l : List String) :
    String.join (s :: l) = s ++ String.join l := by
  show (s :: l).foldl (fun r t => r ++ t) "" = s ++ l.foldl (fun r t => r ++ t) ""
  simp only [List.foldl_cons]
  rw [string_foldl_shift l ("" ++ s), String.empty_append]

theorem foldl_append_eq_join (l : List Message) (p : String) :
    l.foldl (fun acc m => acc ++ m.get) p = p ++ String.join (l.map Message.get) := by
  induction l generalizing p with
  | nil => simp [String.join, String.append_empty]
  | cons m l ih =>
    simp only [List.foldl_cons, List.map_cons]
    rw [ih, string_join_cons, String.append_assoc]

/-- `get` unfolded into the concatenation shape: system turn, each stored
turn in order, trailing trimmed assistant marker. -/
theorem History.get_eq (h : History) :
    h.get = h.system.get ++ String.join (h.history.map Message.get) ++ "<|assistant|>" := by
  rw [History.get, History.get_inner, foldl_append_eq_join, rustTrim_assistant]

/-- `get_with_system` unfolded the same way, with the substituted system turn. -/
theorem History.get_with_system_eq (h : History) (c : String) :
    h.get_with_system c =
      Message.get { message_type := .System, content := c } ++
        String.join (h.history.map Message.get) ++ "<|assistant|>" := by
  rw [History.get_with_system, History.get_inner, foldl_append_eq_join, rustTrim_assistant]

theorem string_join_append (l₁ l₂ : List String) :
    String.join (l₁ ++ l₂) = String.join l₁ ++ String.join l₂ := by
  induction l₁ with
  | nil => simp [String.join, String.empty_append]
  | cons s l ih =>
    simp only [List.cons_append, string_join_cons, ih, String.append_assoc]

/-- After pushing a User turn, the rendered prompt (with or without a
per-call system override) decomposes as some prefix, then the serialized
User turn, then the trailing assistant marker. -/
theorem rendered_for_push_user (h : History) (p : String) (setup : Option String) :
    ∃ pre, rendered_for (h.push .User p) setup =
      pre ++ Message.get { message_type := .User, content := p } ++ "<|assistant|>" := by
  cases setup with
  | none =>
    refine ⟨h.system.get ++ String.join (h.history.map Message.get), ?_⟩
    rw [rendered_for, History.get_eq]
    simp only [History.push, List.map_append, string_join_append, List.map_cons,
      List.map_nil, String.append_assoc]
    simp [String.join, string_join_cons, String.append_empty, String.append_assoc]
  | some v =>
    refine ⟨Message.get { message_type := .System, content := v } ++
      String.join (h.history.map Message.get), ?_⟩
    rw [rendered_for, History.get_with_system_eq]
    simp only [History.push, List.map_append, string_join_append, List.map_cons,
      List.map_nil, String.append_assoc]
    simp [String.join, string_join_cons, String.append_empty, String.append_assoc]

/-! ## Claim theorems: history rendering -/

/-- C7: for every conversation state, `clear()` retains the system turn
untouched and the subsequent `render()` yields exactly the rendered system
turn followed by the trailing assistant role-marker with no terminator,
regardless of how many turns existed before. -/
theorem c7_clear_renders_system_plus_marker (h : History) :
    h.clear.system = h.system ∧
    h.clear.get = h.system.get ++ "<|assistant|>" := by
  refine ⟨rfl, ?_⟩
  rw [History.get_eq]
  simp [History.clear, String.join, String.append_empty]

/-- C8: `render()` concatenates the system turn, then each stored turn in
order, each serialized as role-marker, content, terminator, followed by a
trailing assistant role-marker with no terminator; the conversation seeded
with system "You are helpful." and the assistant greeting, after
`append(User, "hi")`, renders to the concrete expected prompt. -/
theorem c8_render_concatenation :
    (∀ h : History,
      h.get = h.system.get ++ String.join (h.history.map Message.get) ++ "<|assistant|>") ∧
    (∀ m : Message, m.get = m.message_type.display ++ m.content ++ "</s>\n") ∧
    ((History.new "You are helpful.").push .User "hi").get =
      "<|system|>\nYou are helpful.</s>\n<|assistant|>\nHello, how may I help you today?</s>\n<|user|>\nhi</s>\n<|assistant|>" :=
  ⟨History.get_eq, fun _ => rfl, by decide⟩

/-- C9: `render()` is deterministic — it is a pure function of the
conversation state (equal states render equally), a call leaves the state
unchanged, and a second call against the unchanged state returns the
identical string. -/
theorem c9_render_deterministic :
    (∀ h : History, (render_call h).2 = h) ∧
    (∀ h : History, (render_call (render_call h).2).1 = (render_call h).1) ∧
    (∀ h h' : History, h.system = h'.system → h.history = h'.history → h.get = h'.get) := by
  refine ⟨fun _ => rfl, fun _ => rfl, ?_⟩
  intro h h' hs hh
  cases h
  cases h'
  cases hs
  cases hh
  rfl

/-- Witness for C9 at a concrete conversation. -/
theorem c9_render_deterministic_witness :
    (render_call (History.new "A")).2 = History.new "A" ∧
    (render_call (render_call (History.new "A")).2).1 = (render_call (History.new "A")).1 ∧
    (History.new "A").get = (History.new "A").get :=
  ⟨c9_render_deterministic.1 (History.new "A"),
   c9_render_deterministic.2.1 (History.new "A"),
   c9_render_deterministic.2.2 (History.new "A") (History.new "A") rfl rfl⟩

/-! ## Claim theorems: auth gate -/

/-- C5: the auth check returns true iff the header is present, decodes as a
string, and equals the expected secret; on any of the three operations an
auth failure yields 401 with the state returned untouched (the constant
response also shows neither History nor the flag is consulted). -/
theorem c5_auth_gate (st : AppState) (header : Option HeaderValue)
    (req : GenerateRequest) (hauth : valid_header header st.secret = false) :
    (∀ (expected : String) (hd : Option HeaderValue),
      valid_header hd expected = true ↔ hd = some (.valid expected)) ∧
    handle_is_busy st header = (401, IsBusyResponse.Busy, st) ∧
    clear_history st header = (401, ClearHistoryResponse.Busy, st) ∧
    handle_generate st header req = (401, GenerateResponse.Busy, st) := by
  refine ⟨?_, ?_, ?_, ?_⟩
  · intro expected hd
    cases hd with
    | none => simp [valid_header]
    | some hv =>
      cases hv with
      | valid s => simp [valid_header, HeaderValue.to_str]
      | malformed => simp [valid_header, HeaderValue.to_str]
  · simp [handle_is_busy, hauth]
  · simp [clear_history, hauth]
  · simp [handle_generate, hauth]

/-- Witness for C5: a mismatching credential against a concrete state. -/
theorem c5_auth_gate_witness :
    valid_header badHeader (idleState okEngine).secret = false ∧
    ((∀ (expected : String) (hd : Option HeaderValue),
        valid_header hd expected = true ↔ hd = some (.valid expected)) ∧
      handle_is_busy (idleState okEngine) badHeader =
        (401, IsBusyResponse.Busy, idleState okEngine) ∧
      clear_history (idleState okEngine) badHeader =
        (401, ClearHistoryResponse.Busy, idleState okEngine) ∧
      handle_generate (idleState okEngine) badHeader sampleReq =
        (401, GenerateResponse.Busy, idleState okEngine)) :=
  ⟨rfl, c5_auth_gate (idleState okEngine) badHeader sampleReq rfl⟩

/-- C10: every auth-rejected request on any of the three operations gets
the `Busy` variant as its body, serialized as `{"type":"busy"}` — on the
status operation as well, where this body is emitted even when the slot is
actually free. -/
theorem c10_auth_failure_body_is_busy (st : AppState) (header : Option HeaderValue)
    (req : GenerateRequest) (hauth : valid_header header st.secret = false) :
    (handle_is_busy st header).1 = 401 ∧
    (handle_is_busy st header).2.1.toJson = "\x7b\"type\":\"busy\"\x7d" ∧
    (clear_history st header).1 = 401 ∧
    (clear_history st header).2.1.toJson = "\x7b\"type\":\"busy\"\x7d" ∧
    (handle_generate st header req).1 = 401 ∧
    (handle_generate st header req).2.1.toJson = "\x7b\"type\":\"busy\"\x7d" ∧
    (st.ai_active = false → (handle_is_busy st header).2.1 = IsBusyResponse.Busy) := by
  refine ⟨?_, ?_, ?_, ?_, ?_, ?_, fun _ => ?_⟩ <;>
    simp [handle_is_busy, clear_history, handle_generate, hauth,
      IsBusyResponse.toJson, ClearHistoryResponse.toJson, GenerateResponse.toJson]

/-- Witness for C10: a missing header against a concrete idle state — the
status body claims busy although the slot is free. -/
theorem c10_auth_failure_body_is_busy_witness :
    valid_header none (idleState okEngine).secret = false ∧
    ((handle_is_busy (idleState okEngine) none).1 = 401 ∧
      (handle_is_busy (idleState okEngine) none).2.1.toJson = "\x7b\"type\":\"busy\"\x7d" ∧
      (clear_history (idleState okEngine) none).1 = 401 ∧
      (clear_history (idleState okEngine) none).2.1.toJson = "\x7b\"type\":\"busy\"\x7d" ∧
      (handle_generate (idleState okEngine) none sampleReq).1 = 401 ∧
      (handle_generate (idleState okEngine) none sampleReq).2.1.toJson =
        "\x7b\"type\":\"busy\"\x7d" ∧
      ((idleState okEngine).ai_active = false →
        (handle_is_busy (idleState okEngine) none).2.1 = IsBusyResponse.Busy)) :=
  ⟨rfl, c10_auth_failure_body_is_busy (idleState okEngine) none sampleReq rfl⟩

/-! ## Claim theorems: generate failure path -/

/-- C2 (refuted on the code): when the engine call fails, the handler does
return 500 with a `generate_error` body and appends no Assistant turn, but
the early return skips `*ai_active = false`, so the flag stays `true`: the
slot is never released, and every later authorized generate or clear gets
409 while the status endpoint reports busy forever. -/
theorem c2_engine_failure_leaves_slot_stuck :
    (handle_generate (idleState failEngine) goodHeader sampleReq).1 = 500 ∧
    (handle_generate (idleState failEngine) goodHeader sampleReq).2.1 =
      GenerateResponse.GenerateError "unable to create token generation stream" ∧
    (handle_generate (idleState failEngine) goodHeader sampleReq).2.2.ai_active = true ∧
    (handle_generate (idleState failEngine) goodHeader sampleReq).2.2.history =
      (History.new "You are helpful.").push .User "2+2?" ∧
    (handle_generate (handle_generate (idleState failEngine) goodHeader sampleReq).2.2
        goodHeader sampleReq).1 = 409 ∧
    (clear_history (handle_generate (idleState failEngine) goodHeader sampleReq).2.2
        goodHeader).1 = 409 ∧
    (handle_is_busy (handle_generate (idleState failEngine) goodHeader sampleReq).2.2
        goodHeader).2.1 = IsBusyResponse.Busy :=
  ⟨rfl, rfl, rfl, by decide, rfl, rfl, rfl⟩

/-! ## Claim theorems: generate ordering -/

/-- C4: whenever a generate call reaches the engine (session creation
succeeded), the User turn carrying the prompt is appended before the engine
is invoked and the rendered prompt handed to the engine is rendered from
the history including that User turn (it contains the serialized User
turn); and across `handle_generate`, an Assistant turn is appended exactly
when the engine call succeeds (status 200), never on any other outcome. -/
theorem c4_user_turn_before_engine (eng : Engine) (h : History) (opts : Options)
    (hs : eng.create_session = .ok ()) :
    (generate_text eng h opts).1 = h.push .User opts.prompt ∧
    (generate_text eng h opts).2 =
      eng.complete (rendered_for (h.push .User opts.prompt) opts.setup)
        (opts.max_tokens.getD DEFAULT_MAX_TOKENS) ∧
    (∃ pre, rendered_for (h.push .User opts.prompt) opts.setup =
      pre ++ Message.get { message_type := .User, content := opts.prompt } ++ "<|assistant|>") ∧
    (∀ (st : AppState) (header : Option HeaderValue) (req : GenerateRequest)
        (n : Nat) (resp : GenerateResponse) (st' : AppState),
      handle_generate st header req = (n, resp, st') → n = 200 →
        ∃ out, resp = GenerateResponse.Success out ∧
          st'.history = (st.history.push .User req.prompt).push .Assistant out) ∧
    (∀ (st : AppState) (header : Option HeaderValue) (req : GenerateRequest)
        (n : Nat) (resp : GenerateResponse) (st' : AppState),
      handle_generate st header req = (n, resp, st') → n ≠ 200 →
        st'.history = st.history ∨ st'.history = st.history.push .User req.prompt) := by
  refine ⟨?_, ?_, rendered_for_push_user h opts.prompt opts.setup, ?_, ?_⟩
  · rw [generate_text, hs]
  · rw [generate_text, hs]
  · intro st header req n resp st' heq h200
    subst h200
    simp only [handle_generate] at heq
    split at heq
    · simp at heq
    · split at heq
      · simp at heq
      · split at heq
        next hist e hg =>
          simp at heq
        next hist output hg =>
          simp only [generate_text] at hg
          split at hg
          · simp at hg
          · simp only [GenerateRequest.into, Prod.mk.injEq] at hg
            obtain ⟨hhist, -⟩ := hg
            cases heq
            exact ⟨output, rfl, by rw [← hhist]⟩
  · intro st header req n resp st' heq hne
    simp only [handle_generate] at heq
    split at heq
    · cases heq
      exact Or.inl rfl
    · split at heq
      · cases heq
        exact Or.inl rfl
      · split at heq
        next hist e hg =>
          simp only [generate_text] at hg
          split at hg
          · simp only [Prod.mk.injEq] at hg
            obtain ⟨hhist, -⟩ := hg
            cases heq
            exact Or.inl (by rw [← hhist])
          · simp only [GenerateRequest.into, Prod.mk.injEq] at hg
            obtain ⟨hhist, -⟩ := hg
            cases heq
            exact Or.inr (by rw [← hhist])
        next hist output hg =>
          cases heq
          exact absurd rfl hne

/-- Witness for C4: the ordering facts evaluated on a concrete engine,
history and request. -/
theorem c4_user_turn_before_engine_witness :
    okEngine.create_session = .ok () ∧
    (generate_text okEngine (History.new "You are helpful.") sampleReq.into).1 =
      (History.new "You are helpful.").push .User "2+2?" ∧
    (∃ out, (GenerateResponse.Success "It is 4." : GenerateResponse) =
        GenerateResponse.Success out ∧
      (handle_generate (idleState okEngine) goodHeader sampleReq).2.2.history =
        (((idleState okEngine).history.push .User sampleReq.prompt).push .Assistant out)) :=
  ⟨rfl,
   (c4_user_turn_before_engine okEngine (History.new "You are helpful.")
      sampleReq.into rfl).1,
   (c4_user_turn_before_engine okEngine (History.new "You are helpful.")
      sampleReq.into rfl).2.2.2.1 (idleState okEngine) goodHeader sampleReq
      200 (GenerateResponse.Success "It is 4.")
      (handle_generate (idleState okEngine) goodHeader sampleReq).2.2 rfl rfl⟩

/-! ## The mutual-exclusion invariant of the `ai_active` mutex -/

theorem lockInv_update (s : Sys) (i : Nat) (t t' : TaskState) (L : Option Nat)
    (hinv : LockInv s) (hti : s.tasks.get? i = some t)
    (hcase :
      (s.aiLock = none ∧ L = some i ∧ holdsAi t' = true) ∨
      (holdsAi t = true ∧ L = none ∧ holdsAi t' = false) ∨
      (holdsAi t = true ∧ L = s.aiLock ∧ holdsAi t' = true) ∨
      (holdsAi t = false ∧ L = s.aiLock ∧ holdsAi t' = false)) :
    (∀ j u, (s.tasks.set i t').get? j = some u → holdsAi u = true → L = some j) ∧
    (∀ j, L = some j → ∃ u, (s.tasks.set i t').get? j = some u ∧ holdsAi u = true) := by
  obtain ⟨h1, h2⟩ := hinv
  have hlt : i < s.tasks.length := by
    rw [List.get?_eq_some] at hti
    exact hti.1
  constructor
  · intro j u hgu hu
    by_cases hij : j = i
    · subst hij
      rw [List.get?_set_eq_of_lt t' hlt] at hgu
      cases hgu
      rcases hcase with ⟨-, hL, -⟩ | ⟨-, -, hf⟩ | ⟨ht, hL, -⟩ | ⟨-, -, hf⟩
      · exact hL
      · rw [hf] at hu; cases hu
      · rw [hL]; exact h1 j t hti ht
      · rw [hf] at hu; cases hu
    · rw [List.get?_set_ne t' s.tasks (fun he => hij he.symm)] at hgu
      have hL' := h1 j u hgu hu
      rcases hcase with ⟨hn, -, -⟩ | ⟨ht, -, -⟩ | ⟨-, hL, -⟩ | ⟨-, hL, -⟩
      · rw [hn] at hL'; cases hL'
      · have hi' := h1 i t hti ht
        rw [hi'] at hL'
        cases hL'
        exact absurd rfl hij
      · rw [hL]; exact hL'
      · rw [hL]; exact hL'
  · intro j hLj
    rcases hcase with ⟨-, hL, ht'⟩ | ⟨-, hL, -⟩ | ⟨-, hL, ht'⟩ | ⟨htf, hL, -⟩
    · rw [hL] at hLj
      cases hLj
      exact ⟨t', List.get?_set_eq_of_lt t' hlt, ht'⟩
    · rw [hL] at hLj
      exact Option.noConfusion hLj
    · rw [hL] at hLj
      obtain ⟨u, hgu, hu⟩ := h2 j hLj
      by_cases hij : j = i
      · subst hij
        exact ⟨t', List.get?_set_eq_of_lt t' hlt, ht'⟩
      · refine ⟨u, ?_, hu⟩
        rw [List.get?_set_ne t' s.tasks (fun he => hij he.symm)]
        exact hgu
    · rw [hL] at hLj
      obtain ⟨u, hgu, hu⟩ := h2 j hLj
      by_cases hij : j = i
      · subst hij
        rw [hti] at hgu
        cases hgu
        rw [htf] at hu
        cases hu
      · refine ⟨u, ?_, hu⟩
        rw [List.get?_set_ne t' s.tasks (fun he => hij he.symm)]
        exact hgu

theorem lockInv_init {s : Sys} (h : Init s) : LockInv s := by
  obtain ⟨hai, -, -, htasks⟩ := h
  constructor
  · intro i t hget hholds
    have hmem : t ∈ s.tasks := List.get?_mem hget
    obtain ⟨hpc, hres⟩ := htasks t hmem
    rw [holdsAi, hpc, hres] at hholds
    simp [TaskKind.isGen] at hholds
  · intro i hL
    rw [hai] at hL
    exact Option.noConfusion hL

theorem lockInv_step {s u : Sys} {i : Nat} (hinv : LockInv s) (hstep : step s i = some u) :
    LockInv u := by
  unfold step at hstep
  split at hstep
  · exact Option.noConfusion hstep
  next t hti =>
    split at hstep
    next r hr => exact Option.noConfusion hstep
    next hr =>
      split at hstep
      next prompt setup outcome hk =>
        split at hstep
        · -- gen pc 0: acquire the ai mutex
          split at hstep
          next hfree =>
            cases hstep
            exact lockInv_update s i t _ _ hinv hti
              (Or.inl ⟨hfree, rfl, by simp [holdsAi, hr]⟩)
          next j hheld => exact Option.noConfusion hstep
        next hpc =>
          -- gen pc 1: flag check
          split at hstep
          next hact =>
            cases hstep
            exact lockInv_update s i t _ _ hinv hti
              (Or.inr (Or.inl ⟨by simp [holdsAi, hr, hpc], rfl, by simp [holdsAi]⟩))
          next hact =>
            cases hstep
            exact lockInv_update s i t _ _ hinv hti
              (Or.inr (Or.inr (Or.inl ⟨by simp [holdsAi, hr, hpc], rfl,
                by simp [holdsAi, hr, hk, TaskKind.isGen]⟩)))
        next hpc =>
          -- gen pc 2: acquire the history mutex
          split at hstep
          next hfree =>
            cases hstep
            exact lockInv_update s i t _ _ hinv hti
              (Or.inr (Or.inr (Or.inl ⟨by simp [holdsAi, hr, hpc, hk, TaskKind.isGen], rfl,
                by simp [holdsAi, hr, hk, TaskKind.isGen]⟩)))
          next j hheld => exact Option.noConfusion hstep
        next hpc =>
          -- gen pc 3: the engine call
          split at hstep
          · cases hstep
            exact lockInv_update s i t _ _ hinv hti
              (Or.inr (Or.inl ⟨by simp [holdsAi, hr, hpc, hk, TaskKind.isGen], rfl,
                by simp [holdsAi]⟩))
          · cases hstep
            exact lockInv_update s i t _ _ hinv hti
              (Or.inr (Or.inl ⟨by simp [holdsAi, hr, hpc, hk, TaskKind.isGen], rfl,
                by simp [holdsAi]⟩))
          next output hout =>
            cases hstep
            exact lockInv_update s i t _ _ hinv hti
              (Or.inr (Or.inr (Or.inl ⟨by simp [holdsAi, hr, hpc, hk, TaskKind.isGen], rfl,
                by simp [holdsAi, hr, hk, TaskKind.isGen]⟩)))
        next hpc =>
          -- gen pc 4: line 155, clear the flag
          cases hstep
          exact lockInv_update s i t _ _ hinv hti
            (Or.inr (Or.inr (Or.inl ⟨by simp [holdsAi, hr, hpc, hk, TaskKind.isGen], rfl,
              by simp [holdsAi, hr, hk, TaskKind.isGen]⟩)))
        next hpc =>
          -- gen pc 5: line 156, push the Assistant turn
          split at hstep
          next output hout =>
            cases hstep
            exact lockInv_update s i t _ _ hinv hti
              (Or.inr (Or.inr (Or.inl ⟨by simp [holdsAi, hr, hpc, hk, TaskKind.isGen], rfl,
                by simp [holdsAi, hr, hk, TaskKind.isGen]⟩)))
          next hout => exact Option.noConfusion hstep
        next hpc =>
          -- gen pc 6: the 200 return, dropping both guards
          split at hstep
          next output hout =>
            cases hstep
            exact lockInv_update s i t _ _ hinv hti
              (Or.inr (Or.inl ⟨by simp [holdsAi, hr, hpc, hk, TaskKind.isGen], rfl,
                by simp [holdsAi]⟩))
          next hout => exact Option.noConfusion hstep
        next hpc h1 h2 h3 h4 h5 h6 h7 =>
          exact Option.noConfusion hstep
      next hk =>
        -- clear task
        split at hstep
        · split at hstep
          next hfree =>
            cases hstep
            exact lockInv_update s i t _ _ hinv hti
              (Or.inl ⟨hfree, rfl, by simp [holdsAi, hr]⟩)
          next j hheld => exact Option.noConfusion hstep
        next hpc =>
          split at hstep
          next hact =>
            cases hstep
            exact lockInv_update s i t _ _ hinv hti
              (Or.inr (Or.inl ⟨by simp [holdsAi, hr, hpc], rfl, by simp [holdsAi]⟩))
          next hact =>
            cases hstep
            exact lockInv_update s i t _ _ hinv hti
              (Or.inr (Or.inl ⟨by simp [holdsAi, hr, hpc], rfl,
                by simp [holdsAi, hr, hk, TaskKind.isGen]⟩))
        next hpc =>
          split at hstep
          next hfree =>
            cases hstep
            exact lockInv_update s i t _ _ hinv hti
              (Or.inr (Or.inr (Or.inr ⟨by simp [holdsAi, hr, hpc, hk, TaskKind.isGen], rfl,
                by simp [holdsAi, hr, hk, TaskKind.isGen]⟩)))
          next j hheld => exact Option.noConfusion hstep
        next hpc =>
          cases hstep
          exact lockInv_update s i t _ _ hinv hti
            (Or.inr (Or.inr (Or.inr ⟨by simp [holdsAi, hr, hpc, hk, TaskKind.isGen], rfl,
              by simp [holdsAi]⟩)))
        next hpc h1 h2 h3 h4 =>
          exact Option.noConfusion hstep
      next hk =>
        -- status task
        split at hstep
        · split at hstep
          next hfree =>
            cases hstep
            exact lockInv_update s i t _ _ hinv hti
              (Or.inl ⟨hfree, rfl, by simp [holdsAi, hr]⟩)
          next j hheld => exact Option.noConfusion hstep
        next hpc =>
          cases hstep
          exact lockInv_update s i t _ _ hinv hti
            (Or.inr (Or.inl ⟨by simp [holdsAi, hr, hpc], rfl, by simp [holdsAi]⟩))
        next hpc h1 h2 =>
          exact Option.noConfusion hstep

theorem lockInv_reach {s0 s : Sys} (h0 : Init s0) (hr : Reach s0 s) : LockInv s := by
  induction hr with
  | refl => exact lockInv_init h0
  | tail i hprev hstep ih => exact lockInv_step ih hstep

/-! ## Claim theorems: concurrency -/

/-- C1: in every reachable state in which a successful generate task has
executed line 155 (`*ai_active = false`) but not yet line 156 (the
Assistant push) — i.e. the slot flag is down but the just-produced turn is
not yet in History — that task still holds the `ai_active` mutex; hence no
other request is at its flag-reading instruction, and any other request
attempting to acquire the mutex is blocked.  The release another task can
observe happens only at the handler's return, after the engine call has
returned and the Assistant turn has been appended. -/
theorem c1_slot_release_after_append (s0 s : Sys) (h0 : Init s0) (hr : Reach s0 s)
    (i : Nat) (t : TaskState) (hget : s.tasks.get? i = some t)
    (hgen : t.kind.isGen = true) (hpc : t.pc = 5) (hres : t.result = none) :
    s.aiLock = some i ∧
    (∀ j u, s.tasks.get? j = some u → u.result = none → u.pc = 1 → j = i) ∧
    (∀ j u, j ≠ i → s.tasks.get? j = some u → u.result = none → u.pc = 0 →
      step s j = none) := by
  have hinv := lockInv_reach h0 hr
  have hholds : holdsAi t = true := by
    simp [holdsAi, hgen, hpc, hres]
  have hlock : s.aiLock = some i := hinv.1 i t hget hholds
  refine ⟨hlock, ?_, ?_⟩
  · intro j u hgu hres' hpc'
    have hu : holdsAi u = true := by simp [holdsAi, hres', hpc']
    have hj := hinv.1 j u hgu hu
    rw [hlock] at hj
    cases hj
    rfl
  · intro j u hne hgu hres' hpc'
    obtain ⟨k, pc, res⟩ := u
    simp only at hres' hpc'
    subst hres'
    subst hpc'
    rw [List.get?_eq_getElem?] at hgu
    cases k <;> simp [step, hgu, hlock]

/-- Witness for C1: the single-generate fixture driven to the danger
window (after line 155, before line 156) in five atomic steps. -/
theorem c1_slot_release_after_append_witness :
    oneGenMid.aiLock = some 0 ∧
    (∀ j u, oneGenMid.tasks.get? j = some u → u.result = none → u.pc = 1 → j = 0) ∧
    (∀ j u, j ≠ 0 → oneGenMid.tasks.get? j = some u → u.result = none → u.pc = 0 →
      step oneGenMid j = none) :=
  c1_slot_release_after_append oneGenSys oneGenMid
    ⟨rfl, rfl, rfl, by decide⟩
    (Reach.tail 0 (Reach.tail 0 (Reach.tail 0 (Reach.tail 0
      (Reach.tail 0 (Reach.refl oneGenSys) rfl) rfl) rfl) rfl) rfl)
    0 _ rfl rfl rfl rfl

/-- C3 (refuted on the code): the `ai_active` mutex guard lives to the end
of `handle_generate`, so a second concurrent generate call does **not**
observe a Conflict immediately: its very first step (acquiring the mutex,
line 134) is blocked while the first call is in flight, and once the first
call completes the second proceeds and succeeds — both return 200 and
neither ever observes a Conflict.  (At most one call is in flight at a
time, but by queueing, not by immediate rejection.) -/
theorem c3_second_generate_waits_instead_of_conflict :
    (stepN twoGenSys [0, 0, 0]).isSome = true ∧
    ((stepN twoGenSys [0, 0, 0]).map (fun mid => mid.aiActive) = some true) ∧
    ((stepN twoGenSys [0, 0, 0]).bind (fun mid => step mid 1) = none) ∧
    ((stepN twoGenSys [0, 0, 0, 0, 0, 0, 0, 1, 1, 1, 1, 1, 1, 1]).map
        (fun fin => fin.tasks.map TaskState.result) =
      some [some (.genSuccess "It is 4."), some (.genSuccess "It is 6.")]) := by
  refine ⟨rfl, rfl, rfl, by decide⟩

/-- C6 (refuted on the code): a clear request arriving while a generate
call holds the slot is not rejected with 409: it blocks on the `ai_active`
mutex (line 82) until the generation completes, then finds the flag down,
clears History and returns success — History is mutated, not left
unchanged. -/
theorem c6_clear_while_busy_waits_then_clears :
    ((stepN genClearSys [0, 0, 0]).map (fun mid => mid.aiActive) = some true) ∧
    ((stepN genClearSys [0, 0, 0]).bind (fun mid => step mid 1) = none) ∧
    ((stepN genClearSys [0, 0, 0, 0, 0, 0, 0, 1, 1, 1, 1]).map
        (fun fin => (fin.tasks.map TaskState.result, fin.hist.history)) =
      some ([some (.genSuccess "It is 4."), some .clearDone], [])) := by
  refine ⟨rfl, rfl, by decide⟩

end AiSidecar
